import Mathlib

/-!
Verification of the med-lab clinic booking application.

This file gives a shallow embedding of the booking validation and
persistence logic of the repository (src/booking/models.py,
src/booking/forms.py, src/booking/views.py, src/booking/admin.py) and
proves or refutes the frozen behavioural claims about it.

Modelling conventions:
* Python `datetime.date` / `datetime.time` values are embedded as
  `(year, month, day)` and `(hour, minute)` records, compared
  lexicographically exactly as Python compares them.  Times are modelled
  at minute granularity; every comparison appearing in the source
  compares form/model times whose seconds are zero, so no claim depends
  on sub-minute resolution.
* Strings are Lean `String`s; the Python string methods used by the
  source (`strip`, `title`, `lower`, `isdigit`, `isalpha`, `isspace`)
  are embedded below over their ASCII fragment, which covers every
  concrete value any claim is evaluated at.
* The database is an explicit record of lists of rows; Django ORM calls
  are embedded as functions on that record.  `transaction.atomic`
  (src/booking/views.py line 58) is embedded by the workflow function
  returning the *initial* database whenever the transaction body raises.
* Primary keys are `Nat`, timestamps (`created_at` / `updated_at`) are
  `Nat` tick counts.
-/

namespace MedLab

/-- A calendar date `(year, month, day)`, the embedding of Python
`datetime.date`.  Python orders dates lexicographically. -/
structure Date where
  year : Nat
  month : Nat
  day : Nat
deriving DecidableEq, Repr

/-- Boolean strict order on dates, lexicographic. -/
def Date.ltb (a b : Date) : Bool :=
  if a.year ≠ b.year then decide (a.year < b.year)
  else if a.month ≠ b.month then decide (a.month < b.month)
  else decide (a.day < b.day)

/-- A clock time `(hour, minute)`, the embedding of Python
`datetime.time` at minute granularity.  Python orders times
lexicographically. -/
structure Time where
  hour : Nat
  minute : Nat
deriving DecidableEq, Repr

/-- Boolean strict order on times, lexicographic. -/
def Time.ltb (a b : Time) : Bool :=
  if a.hour ≠ b.hour then decide (a.hour < b.hour)
  else decide (a.minute < b.minute)

/-- Boolean non-strict order on times, lexicographic. -/
def Time.leb (a b : Time) : Bool :=
  if a.hour ≠ b.hour then decide (a.hour < b.hour)
  else decide (a.minute ≤ b.minute)

theorem Date.ltb_irrefl (d : Date) : Date.ltb d d = false := by
  simp [Date.ltb]

theorem Time.leb_eq_false_iff_ltb (a b : Time) :
    Time.leb a b = false ↔ Time.ltb b a = true := by
  unfold Time.leb Time.ltb
  by_cases h : a.hour = b.hour
  · simp [h]
  · have h2 : b.hour ≠ a.hour := fun he => h he.symm
    simp [h, h2]
    omega

/-- Python `str.strip()`: drop leading and trailing whitespace. -/
def pyStrip (s : String) : String :=
  String.mk
    (((s.data.dropWhile Char.isWhitespace).reverse.dropWhile
        Char.isWhitespace).reverse)

/-- One step of Python `str.title()` over a character list: a letter that
follows a non-letter is uppercased, a letter that follows a letter is
lowercased, every other character is kept and resets the word. -/
def pyTitleGo : Bool → List Char → List Char
  | _, [] => []
  | prevAlpha, c :: cs =>
    if c.isAlpha then
      (if prevAlpha then c.toLower else c.toUpper) :: pyTitleGo true cs
    else
      c :: pyTitleGo false cs

/-- Python `str.title()` (ASCII fragment). -/
def pyTitle (s : String) : String := String.mk (pyTitleGo false s.data)

/-- Python `str.lower()` (ASCII fragment). -/
def pyLower (s : String) : String := String.mk (s.data.map Char.toLower)

/-- Embeds `PatientForm.clean_name` (src/booking/forms.py lines 61-70): when the
name is nonempty, strip and title-case it, then reject if the result is
shorter than 2 characters or contains a character that is neither a
letter nor whitespace; on success the *cleaned* value is returned. -/
def clean_name (name : String) : Except String String :=
  if name == "" then .ok name
  else
    let n := pyTitle (pyStrip name)
    if n.length < 2 then .error "Name must be at least 2 characters long."
    else if ¬ (n.data.all fun c => c.isAlpha || c.isWhitespace) then
      .error "Name should contain only letters and spaces."
    else .ok n

/-- Embeds `PatientForm.clean_phone` (src/booking/forms.py lines 72-81): when the
phone is nonempty, keep every character that is a digit or a `+` (a `+`
is kept wherever it occurs), then reject if the kept string — `+` signs
included — is shorter than 10 characters; on success the kept string is
returned. -/
def clean_phone (phone : String) : Except String String :=
  if phone == "" then .ok phone
  else
    let cleaned := String.mk (phone.data.filter fun c => c.isDigit || c == '+')
    if cleaned.length < 10 then
      .error "Phone number must be at least 10 digits."
    else .ok cleaned

/-- Embeds `PatientForm.clean_email` (src/booking/forms.py lines 83-88): when the
email is nonempty, lowercase it and strip it. -/
def clean_email (email : String) : String :=
  if email == "" then email else pyStrip (pyLower email)

/-- Booking status enum (src/booking/models.py STATUS_CHOICES). -/
inductive Status where
  | pending
  | confirmed
  | completed
  | cancelled
deriving DecidableEq, Repr

/-- A Patient row (src/booking/models.py lines 10-42).  `gender` is the
one-letter choice code; `created_at` is set once at insertion
(`auto_now_add`). -/
structure Patient where
  id : Nat
  name : String
  age : Int
  gender : String
  phone : String
  email : String
  address : String
  created_at : Nat
deriving DecidableEq, Repr

/-- A Test row (src/booking/models.py lines 45-80).  Only the fields the
verified claims mention are carried; `description`, `price` and
`duration_hours` play no part in any claim. -/
structure Test where
  id : Nat
  test_name : String
  is_active : Bool
deriving DecidableEq, Repr

/-- A Booking row (src/booking/models.py lines 83-121).  `created_at` is
`auto_now_add`; `updated_at` is `auto_now`, i.e. it is refreshed by
`Model.save` and only by `Model.save`. -/
structure Booking where
  id : Nat
  patient : Nat
  test : Nat
  booking_date : Date
  booking_time : Time
  status : Status
  notes : String
  created_at : Nat
  updated_at : Nat
deriving DecidableEq, Repr

/-- The relational store: the three tables plus the auto-increment
counters for the two surrogate keys the workflow allocates. -/
structure DB where
  patients : List Patient
  tests : List Test
  bookings : List Booking
  nextPatientId : Nat
  nextBookingId : Nat
deriving DecidableEq, Repr

/-- Embeds `Booking.clean` (src/booking/models.py lines 126-137): reject when the
booking date is before today, or when it is today and the booking time is
not strictly after the current clock time. -/
def bookingCleanCheck (today : Date) (now : Time) (d : Date) (t : Time) :
    Except String Unit :=
  if Date.ltb d today then .error "Cannot book for a past date."
  else if d == today && Time.leb t now then
    .error "Cannot book for a past time today."
  else .ok ()

/-- The schema-level unique-together constraint on test, booking_date and
booking_time
constraint (src/booking/models.py line 121): does any existing row — of
*any* status — already occupy the triple? -/
def tripleTaken (bookings : List Booking) (testId : Nat) (d : Date) (t : Time) :
    Bool :=
  bookings.any fun b =>
    b.test == testId && b.booking_date == d && b.booking_time == t

/-- Embeds `Booking.objects.create(...)` as invoked by `book_test`
(src/booking/views.py lines 76-83): `create` calls `Booking.save`, whose
override (src/booking/models.py lines 139-142) first runs `clean`, and
whose INSERT is then subject to the schema `unique_together` constraint;
`auto_now_add` / `auto_now` stamp both timestamps with the current tick. -/
def createBooking (db : DB) (today : Date) (now : Time) (nowTs : Nat)
    (patientId testId : Nat) (d : Date) (t : Time) (notes : String) :
    Except String (DB × Nat) :=
  match bookingCleanCheck today now d t with
  | .error e => .error e
  | .ok _ =>
    if tripleTaken db.bookings testId d t then
      .error "UNIQUE constraint failed: booking_booking.test_id, booking_booking.booking_date, booking_booking.booking_time"
    else
      let b : Booking :=
        { id := db.nextBookingId, patient := patientId, test := testId,
          booking_date := d, booking_time := t, status := .pending,
          notes := notes, created_at := nowTs, updated_at := nowTs }
      .ok ({ db with bookings := db.bookings ++ [b],
                     nextBookingId := db.nextBookingId + 1 }, db.nextBookingId)

/-- Embeds `Booking.save` on an already-persisted row, as triggered by an
individual edit: the override (src/booking/models.py lines 139-142)
unconditionally runs `clean` first, and on success the UPDATE refreshes
`updated_at` (`auto_now`). -/
def bookingSave (db : DB) (today : Date) (now : Time) (nowTs : Nat)
    (b : Booking) : Except String DB :=
  match bookingCleanCheck today now b.booking_date b.booking_time with
  | .error e => .error e
  | .ok _ =>
    .ok { db with bookings := db.bookings.map fun x =>
            if x.id == b.id then { b with updated_at := nowTs } else x }

/-- Embeds `queryset.update(status=s)` over the selected bookings, the operation
behind the admin bulk actions (src/booking/admin.py lines 190-206): a
direct SQL UPDATE of the `status` column only.  It does not go through
`Model.save`, so neither `Booking.clean` nor the `auto_now` refresh of
`updated_at` runs. -/
def querysetUpdateStatus (bookings : List Booking) (ids : List Nat)
    (s : Status) : List Booking :=
  bookings.map fun b => if b.id ∈ ids then { b with status := s } else b

/-- Embeds `BookingAdmin.mark_confirmed` (src/booking/admin.py lines 190-194). -/
def mark_confirmed (bookings : List Booking) (ids : List Nat) : List Booking :=
  querysetUpdateStatus bookings ids .confirmed

/-- Embeds `BookingAdmin.mark_completed` (src/booking/admin.py lines 196-200). -/
def mark_completed (bookings : List Booking) (ids : List Nat) : List Booking :=
  querysetUpdateStatus bookings ids .completed

/-- Embeds `BookingAdmin.mark_cancelled` (src/booking/admin.py lines 202-206). -/
def mark_cancelled (bookings : List Booking) (ids : List Nat) : List Booking :=
  querysetUpdateStatus bookings ids .cancelled

/-- The raw combined patient-plus-booking submission, one field per form
field of `CombinedBookingForm` (src/booking/forms.py lines 193-292), with
date and time already parsed (widget parsing is framework glue). -/
structure CombinedInput where
  patient_name : String
  patient_age : Int
  patient_gender : String
  patient_phone : String
  patient_email : String
  patient_address : String
  test : Nat
  booking_date : Date
  booking_time : Time
  notes : String
deriving DecidableEq, Repr

/-- The Django `EmailField` syntax validator, modelled abstractly: the value
contains an `@` that is neither its first nor its last character.  No
claim depends on the exact shape rule, only on the facts that a
well-formed address passes and that the validator neither lowercases nor
otherwise rewrites the value. -/
def emailShaped (s : String) : Bool :=
  (s.data.any fun c => c == '@')
    && !(s.data.head? == some '@')
    && !(s.data.getLast? == some '@')

/-- Django field-level cleaning for `CombinedBookingForm`
(src/booking/forms.py lines 196-292): every `CharField` strips
whitespace and enforces required/max_length, `IntegerField` enforces
min_value=1/max_value=120, `ChoiceField` membership in the gender codes,
`EmailField` strips and shape-checks (it does *not* lowercase),
`ModelChoiceField` requires an existing active test, and `notes`
(required=False) is stripped.  Returns the cleaned data, or `none` when
some field fails.  Note the form declares no `clean_<field>` methods, so
no further per-field normalization happens. -/
def fieldClean (db : DB) (input : CombinedInput) : Option CombinedInput :=
  let name := pyStrip input.patient_name
  let phone := pyStrip input.patient_phone
  let email := pyStrip input.patient_email
  let address := pyStrip input.patient_address
  let notesC := pyStrip input.notes
  if name == "" || decide (100 < name.length) then none
  else if input.patient_age < 1 || 120 < input.patient_age then none
  else if !(input.patient_gender == "M" || input.patient_gender == "F"
            || input.patient_gender == "O") then none
  else if phone == "" || decide (15 < phone.length) then none
  else if email == "" || !emailShaped email then none
  else if address == "" then none
  else if !(db.tests.any fun t => t.id == input.test && t.is_active) then none
  else some { input with
    patient_name := name, patient_phone := phone, patient_email := email,
    patient_address := address, notes := notesC }

/-- Name of the test with the given id (`test.test_name` in the conflict
message of src/booking/forms.py line 343). -/
def testName (tests : List Test) (id : Nat) : String :=
  match tests.find? (fun t => t.id == id) with
  | some t => t.test_name
  | none => ""

/-- The advisory slot-conflict predicate of `CombinedBookingForm.clean`
(src/booking/forms.py lines 333-339): some existing booking holds the
same (test, booking_date, booking_time) triple with status pending or
confirmed. -/
def slotConflict (bookings : List Booking) (testId : Nat) (d : Date)
    (t : Time) : Bool :=
  bookings.any fun b =>
    b.test == testId && b.booking_date == d && b.booking_time == t
      && (b.status == Status.pending || b.status == Status.confirmed)

/-- The non-field error message raised on a slot conflict
(src/booking/forms.py lines 342-345). -/
def conflictMsg (tests : List Test) (testId : Nat) : String :=
  "This time slot is already booked for " ++ testName tests testId
    ++ ". Please select a different time."

/-- Embeds `CombinedBookingForm.clean` (src/booking/forms.py lines 306-347),
returning its accumulated `(field, message)` errors.  It checks, each
independently of the others: the stripped title-cased name has length at
least 2; the booking date is not before today; the booking time lies in
the inclusive lab-hours window 08:00-20:00; and the advisory
slot-conflict rule.  It performs no same-day past-time check, and it
does not write the title-cased name back into the cleaned data. -/
def combinedCleanErrors (bookings : List Booking) (tests : List Test)
    (today : Date) (cd : CombinedInput) : List (String × String) :=
  (if !(cd.patient_name == "")
      && decide ((pyTitle (pyStrip cd.patient_name)).length < 2) then
    [("patient_name", "Name must be at least 2 characters long.")]
   else [])
  ++ (if Date.ltb cd.booking_date today then
        [("booking_date", "Cannot book for a past date.")]
      else [])
  ++ (if Time.ltb cd.booking_time ⟨8, 0⟩ || Time.ltb ⟨20, 0⟩ cd.booking_time then
        [("booking_time", "Lab hours are from 8:00 AM to 8:00 PM.")]
      else [])
  ++ (if slotConflict bookings cd.test cd.booking_date cd.booking_time then
        [("booking_time", conflictMsg tests cd.test)]
      else [])

/-- The patient field bundle `book_test` builds from the cleaned form data
(src/booking/views.py lines 59-66). -/
structure PatientData where
  name : String
  age : Int
  gender : String
  phone : String
  email : String
  address : String
deriving DecidableEq, Repr

/-- The patient upsert of `book_test` (src/booking/views.py lines 68-74):
`Patient.objects.get(email=...)` returns the unique match, raises
`DoesNotExist` on no match (handled: a fresh row is created, `created_at`
stamped by `auto_now_add`), and raises `MultipleObjectsReturned` on more
than one match (unhandled: it propagates out of the transaction).  On a
unique match every submitted field is written over the stored row. -/
def upsertPatient (db : DB) (nowTs : Nat) (pd : PatientData) :
    Except String (DB × Nat) :=
  match db.patients.filter (fun p => p.email == pd.email) with
  | [] =>
    let p : Patient :=
      { id := db.nextPatientId, name := pd.name, age := pd.age,
        gender := pd.gender, phone := pd.phone, email := pd.email,
        address := pd.address, created_at := nowTs }
    .ok ({ db with patients := db.patients ++ [p],
                   nextPatientId := db.nextPatientId + 1 }, db.nextPatientId)
  | [p] =>
    let p2 : Patient :=
      { p with name := pd.name, age := pd.age, gender := pd.gender,
               phone := pd.phone, email := pd.email, address := pd.address }
    .ok ({ db with patients := db.patients.map fun q =>
             if q.id == p.id then p2 else q }, p.id)
  | _ => .error "MultipleObjectsReturned"

/-- Extraction of the patient data dict from the cleaned form data
(src/booking/views.py lines 59-66). -/
def patientDataOf (cd : CombinedInput) : PatientData :=
  { name := cd.patient_name, age := cd.patient_age,
    gender := cd.patient_gender, phone := cd.patient_phone,
    email := cd.patient_email, address := cd.patient_address }

/-- Outcome of one POST to `book_test`: the form was rejected (field or
form errors), the transaction body raised (every write rolled back), or
the booking was committed.  Each constructor carries the database visible
to subsequent reads. -/
inductive BookResult where
  | rejected (db : DB) (errors : List (String × String))
  | failed (db : DB) (msg : String)
  | success (db : DB) (bookingId : Nat)
deriving DecidableEq, Repr

/-- The POST branch of `book_test` (src/booking/views.py lines 54-94):
validate the combined form; if valid, run the patient upsert and the
booking insert inside `transaction.atomic()` — any exception rolls the
whole transaction back, so the caught-error path returns the *initial*
database. -/
def book_test (db : DB) (today : Date) (now : Time) (nowTs : Nat)
    (input : CombinedInput) : BookResult :=
  match fieldClean db input with
  | none => .rejected db [("__field__", "field validation failed")]
  | some cd =>
    if (combinedCleanErrors db.bookings db.tests today cd).isEmpty then
      match upsertPatient db nowTs (patientDataOf cd) with
      | .error e => .failed db e
      | .ok (db1, pid) =>
        match createBooking db1 today now nowTs pid cd.test cd.booking_date
            cd.booking_time cd.notes with
        | .error e => .failed db e
        | .ok (db2, bid) => .success db2 bid
    else .rejected db (combinedCleanErrors db.bookings db.tests today cd)

/-! ## Concrete fixtures used by witnesses and counterexamples -/

/-- An active test row. -/
def test1 : Test := { id := 1, test_name := "Blood Test", is_active := true }

/-- A store holding one active test and nothing else. -/
def db0 : DB :=
  { patients := [], tests := [test1], bookings := [],
    nextPatientId := 1, nextBookingId := 1 }

/-- A valid combined submission against `db0` for 2025-06-02 10:00. -/
def input0 : CombinedInput :=
  { patient_name := "  jane doe ", patient_age := 30, patient_gender := "F",
    patient_phone := "12-3456", patient_email := "A@b.com",
    patient_address := "12 Main Road", test := 1,
    booking_date := ⟨2025, 6, 2⟩, booking_time := ⟨10, 0⟩, notes := "" }

/-- A pending booking occupying (test 1, 2025-06-01, 10:00). -/
def bkPending : Booking :=
  { id := 1, patient := 1, test := 1, booking_date := ⟨2025, 6, 1⟩,
    booking_time := ⟨10, 0⟩, status := .pending, notes := "",
    created_at := 1, updated_at := 1 }

/-- A confirmed booking occupying (test 1, 2025-06-02, 10:00). -/
def bkConfirmed : Booking :=
  { id := 1, patient := 1, test := 1, booking_date := ⟨2025, 6, 2⟩,
    booking_time := ⟨10, 0⟩, status := .confirmed, notes := "",
    created_at := 1, updated_at := 1 }

/-- A pending future booking last modified at tick 5. -/
def bkStale : Booking :=
  { id := 1, patient := 1, test := 1, booking_date := ⟨2025, 6, 10⟩,
    booking_time := ⟨10, 0⟩, status := .pending, notes := "",
    created_at := 5, updated_at := 5 }

/-! ## Helper lemmas -/

theorem upsertPatient_ok_parts (db : DB) (nowTs : Nat) (pd : PatientData)
    (db1 : DB) (pid : Nat)
    (h : upsertPatient db nowTs pd = .ok (db1, pid)) :
    db1.bookings = db.bookings ∧ db1.tests = db.tests := by
  unfold upsertPatient at h
  split at h
  · simp only [Except.ok.injEq, Prod.mk.injEq] at h
    rw [← h.1]
    exact ⟨rfl, rfl⟩
  · simp only [Except.ok.injEq, Prod.mk.injEq] at h
    rw [← h.1]
    exact ⟨rfl, rfl⟩
  · exact absurd h (by simp)

theorem createBooking_ok_parts (db : DB) (today : Date) (now : Time)
    (nowTs : Nat) (pid tid : Nat) (d : Date) (t : Time) (notes : String)
    (db2 : DB) (bid : Nat)
    (h : createBooking db today now nowTs pid tid d t notes = .ok (db2, bid)) :
    db2.patients = db.patients ∧ db2.tests = db.tests ∧
    db2.bookings = db.bookings ++
      [{ id := db.nextBookingId, patient := pid, test := tid,
         booking_date := d, booking_time := t, status := .pending,
         notes := notes, created_at := nowTs, updated_at := nowTs }] := by
  unfold createBooking at h
  split at h
  · exact absurd h (by simp)
  · split at h
    · exact absurd h (by simp)
    · simp only [Except.ok.injEq, Prod.mk.injEq] at h
      rw [← h.1]
      exact ⟨rfl, rfl, rfl⟩

theorem createBooking_succeeds (db : DB) (today : Date) (now : Time)
    (nowTs : Nat) (pid tid : Nat) (d : Date) (t : Time) (notes : String)
    (hclean : bookingCleanCheck today now d t = .ok ())
    (hfree : tripleTaken db.bookings tid d t = false) :
    createBooking db today now nowTs pid tid d t notes =
      .ok ({ db with
              bookings := db.bookings ++
                [{ id := db.nextBookingId, patient := pid, test := tid,
                   booking_date := d, booking_time := t, status := .pending,
                   notes := notes, created_at := nowTs, updated_at := nowTs }],
              nextBookingId := db.nextBookingId + 1 }, db.nextBookingId) := by
  unfold createBooking
  rw [hclean, hfree]
  simp

/-! ## Claims -/

theorem bookingCleanCheck_past (today : Date) (now : Time) (d : Date)
    (t : Time)
    (h : Date.ltb d today = true ∨ (d = today ∧ Time.leb t now = true)) :
    ∃ msg, bookingCleanCheck today now d t = .error msg := by
  unfold bookingCleanCheck
  rcases h with h | ⟨h1, h2⟩
  · exact ⟨"Cannot book for a past date.", by simp [h]⟩
  · exact ⟨"Cannot book for a past time today.",
      by simp [h1, h2, Date.ltb_irrefl]⟩

/-- C10: every individual save of a Booking row — creation via
`objects.create` as well as update of an existing row — unconditionally
re-runs the past-date/past-time check: with booking_date before today, or
equal to today with booking_time not after the current clock time, the
save raises a validation error (so the write does not occur), regardless
of which other fields (patient, status, notes, ...) carry changed
values. -/
theorem save_always_rechecks_past (db : DB) (today : Date) (now : Time)
    (nowTs : Nat) (b : Booking)
    (h : Date.ltb b.booking_date today = true ∨
         (b.booking_date = today ∧ Time.leb b.booking_time now = true)) :
    (∃ msg, bookingSave db today now nowTs b = .error msg) ∧
    (∀ pid, ∃ msg, createBooking db today now nowTs pid b.test
      b.booking_date b.booking_time b.notes = .error msg) := by
  obtain ⟨msg, hmsg⟩ :=
    bookingCleanCheck_past today now b.booking_date b.booking_time h
  constructor
  · refine ⟨msg, ?_⟩
    unfold bookingSave
    rw [hmsg]
  · intro pid
    refine ⟨msg, ?_⟩
    unfold createBooking
    rw [hmsg]

/-- Witness for C10: updating only the notes of a long-past completed
booking is still refused by `Booking.save`, as is recreating the same
slot. -/
theorem save_always_rechecks_past_witness :
    (∃ msg, bookingSave db0 ⟨2025, 6, 1⟩ ⟨9, 0⟩ 50
      { id := 1, patient := 1, test := 1, booking_date := ⟨2025, 5, 20⟩,
        booking_time := ⟨10, 0⟩, status := .completed,
        notes := "edited note", created_at := 3, updated_at := 3 } =
      .error msg) ∧
    (∃ msg, createBooking db0 ⟨2025, 6, 1⟩ ⟨9, 0⟩ 50 7 1 ⟨2025, 5, 20⟩
      ⟨10, 0⟩ "edited note" = .error msg) := by
  have h := save_always_rechecks_past db0 ⟨2025, 6, 1⟩ ⟨9, 0⟩ 50
    { id := 1, patient := 1, test := 1, booking_date := ⟨2025, 5, 20⟩,
      booking_time := ⟨10, 0⟩, status := .completed,
      notes := "edited note", created_at := 3, updated_at := 3 }
    (Or.inl (by decide))
  exact ⟨h.1, h.2 7⟩

/-- C2: the patient upsert and the booking insert run as one all-or-nothing
unit inside `transaction.atomic`: whenever the POST ends in the rejected or
the caught-exception path, the database visible afterwards is exactly the
initial one (no patient-only side effect), and whenever it succeeds the
booking row was inserted alongside whatever the patient upsert did. -/
theorem booking_workflow_atomic (db : DB) (today : Date) (now : Time)
    (nowTs : Nat) (input : CombinedInput) :
    (∀ db2 msg, book_test db today now nowTs input = .failed db2 msg →
      db2 = db) ∧
    (∀ db2 errs, book_test db today now nowTs input = .rejected db2 errs →
      db2 = db) ∧
    (∀ db2 bid, book_test db today now nowTs input = .success db2 bid →
      ∃ b, db2.bookings = db.bookings ++ [b]) := by
  refine ⟨?_, ?_, ?_⟩
  · intro db2 msg h
    unfold book_test at h
    cases hfc : fieldClean db input with
    | none => rw [hfc] at h; simp at h
    | some cd =>
      rw [hfc] at h
      dsimp only at h
      by_cases he : (combinedCleanErrors db.bookings db.tests today cd).isEmpty
      · rw [if_pos he] at h
        cases hup : upsertPatient db nowTs (patientDataOf cd) with
        | error e =>
          rw [hup] at h
          simp only [BookResult.failed.injEq] at h
          exact h.1.symm
        | ok pr =>
          obtain ⟨db1, pid⟩ := pr
          rw [hup] at h
          dsimp only at h
          cases hcr : createBooking db1 today now nowTs pid cd.test
              cd.booking_date cd.booking_time cd.notes with
          | error e =>
            rw [hcr] at h
            simp only [BookResult.failed.injEq] at h
            exact h.1.symm
          | ok pr2 =>
            obtain ⟨db2x, bidx⟩ := pr2
            rw [hcr] at h
            simp at h
      · rw [if_neg he] at h; simp at h
  · intro db2 errs h
    unfold book_test at h
    cases hfc : fieldClean db input with
    | none =>
      rw [hfc] at h
      simp only [BookResult.rejected.injEq] at h
      exact h.1.symm
    | some cd =>
      rw [hfc] at h
      dsimp only at h
      by_cases he : (combinedCleanErrors db.bookings db.tests today cd).isEmpty
      · rw [if_pos he] at h
        cases hup : upsertPatient db nowTs (patientDataOf cd) with
        | error e => rw [hup] at h; simp at h
        | ok pr =>
          obtain ⟨db1, pid⟩ := pr
          rw [hup] at h
          dsimp only at h
          cases hcr : createBooking db1 today now nowTs pid cd.test
              cd.booking_date cd.booking_time cd.notes with
          | error e => rw [hcr] at h; simp at h
          | ok pr2 =>
            obtain ⟨db2x, bidx⟩ := pr2
            rw [hcr] at h
            simp at h
      · rw [if_neg he] at h
        simp only [BookResult.rejected.injEq] at h
        exact h.1.symm
  · intro db2 bid h
    unfold book_test at h
    cases hfc : fieldClean db input with
    | none => rw [hfc] at h; simp at h
    | some cd =>
      rw [hfc] at h
      dsimp only at h
      by_cases he : (combinedCleanErrors db.bookings db.tests today cd).isEmpty
      · rw [if_pos he] at h
        cases hup : upsertPatient db nowTs (patientDataOf cd) with
        | error e => rw [hup] at h; simp at h
        | ok pr =>
          obtain ⟨db1, pid⟩ := pr
          rw [hup] at h
          dsimp only at h
          cases hcr : createBooking db1 today now nowTs pid cd.test
              cd.booking_date cd.booking_time cd.notes with
          | error e => rw [hcr] at h; simp at h
          | ok pr2 =>
            obtain ⟨db2x, bidx⟩ := pr2
            rw [hcr] at h
            simp only [BookResult.success.injEq] at h
            have h1 := upsertPatient_ok_parts _ _ _ _ _ hup
            have h2 := createBooking_ok_parts _ _ _ _ _ _ _ _ _ _ _ hcr
            exact ⟨_, by rw [← h.1, h2.2.2, h1.1]⟩
      · rw [if_neg he] at h; simp at h

/-- Witness for C2: a concrete run whose booking insert is refused by the
schema uniqueness constraint (the slot is held by a *cancelled* booking,
which the advisory form check ignores) rolls the patient upsert back:
the visible database is unchanged. -/
theorem booking_workflow_atomic_witness :
    (book_test
        { db0 with bookings :=
            [{ id := 7, patient := 9, test := 1,
               booking_date := ⟨2025, 6, 2⟩, booking_time := ⟨10, 0⟩,
               status := .cancelled, notes := "", created_at := 1,
               updated_at := 1 }] }
        ⟨2025, 6, 1⟩ ⟨9, 0⟩ 10 input0 =
      .failed
        { db0 with bookings :=
            [{ id := 7, patient := 9, test := 1,
               booking_date := ⟨2025, 6, 2⟩, booking_time := ⟨10, 0⟩,
               status := .cancelled, notes := "", created_at := 1,
               updated_at := 1 }] }
        "UNIQUE constraint failed: booking_booking.test_id, booking_booking.booking_date, booking_booking.booking_time") ∧
    (∀ db2 msg, book_test
        { db0 with bookings :=
            [{ id := 7, patient := 9, test := 1,
               booking_date := ⟨2025, 6, 2⟩, booking_time := ⟨10, 0⟩,
               status := .cancelled, notes := "", created_at := 1,
               updated_at := 1 }] }
        ⟨2025, 6, 1⟩ ⟨9, 0⟩ 10 input0 = .failed db2 msg →
      db2 = { db0 with bookings :=
            [{ id := 7, patient := 9, test := 1,
               booking_date := ⟨2025, 6, 2⟩, booking_time := ⟨10, 0⟩,
               status := .cancelled, notes := "", created_at := 1,
               updated_at := 1 }] }) :=
  ⟨by decide,
   (booking_workflow_atomic _ ⟨2025, 6, 1⟩ ⟨9, 0⟩ 10 input0).1⟩

theorem slotConflict_in_errors (bookings : List Booking) (tests : List Test)
    (today : Date) (cd : CombinedInput)
    (h : slotConflict bookings cd.test cd.booking_date cd.booking_time = true) :
    ("booking_time", conflictMsg tests cd.test) ∈
      combinedCleanErrors bookings tests today cd ∧
    (combinedCleanErrors bookings tests today cd).isEmpty = false := by
  unfold combinedCleanErrors
  rw [h]
  constructor
  · simp
  · simp [List.isEmpty_eq_false]

/-- C1: a submission whose (test, booking_date, booking_time) triple equals
that of an existing pending or confirmed booking is rejected by the form
with the slot-conflict error on booking_time, and the database — in
particular the booking set — is returned unchanged. -/
theorem conflicting_submission_rejected (db : DB) (today : Date) (now : Time)
    (nowTs : Nat) (input cd : CombinedInput)
    (hfc : fieldClean db input = some cd)
    (b : Booking) (hb : b ∈ db.bookings)
    (ht : b.test = cd.test) (hd : b.booking_date = cd.booking_date)
    (hti : b.booking_time = cd.booking_time)
    (hs : b.status = Status.pending ∨ b.status = Status.confirmed) :
    ∃ errs, book_test db today now nowTs input = .rejected db errs ∧
      ("booking_time", conflictMsg db.tests cd.test) ∈ errs := by
  have hconf : slotConflict db.bookings cd.test cd.booking_date
      cd.booking_time = true := by
    unfold slotConflict
    rw [List.any_eq_true]
    exact ⟨b, hb, by rcases hs with hs | hs <;> simp [ht, hd, hti, hs]⟩
  have hh := slotConflict_in_errors db.bookings db.tests today cd hconf
  refine ⟨_, ?_, hh.1⟩
  unfold book_test
  rw [hfc]
  dsimp only
  rw [hh.2]
  simp

/-- Witness for C1: with a pending booking for (test 1, 2025-06-01, 10:00)
already stored, the identical submission is rejected and no row is added. -/
theorem conflicting_submission_rejected_witness :
    ∃ errs, book_test { db0 with bookings := [bkPending] }
      ⟨2025, 5, 30⟩ ⟨9, 0⟩ 10
      { input0 with patient_name := "Jane Doe",
                    booking_date := ⟨2025, 6, 1⟩ } =
      .rejected { db0 with bookings := [bkPending] } errs ∧
      ("booking_time",
        conflictMsg ({ db0 with bookings := [bkPending] } : DB).tests 1) ∈
        errs :=
  conflicting_submission_rejected { db0 with bookings := [bkPending] }
    ⟨2025, 5, 30⟩ ⟨9, 0⟩ 10
    { input0 with patient_name := "Jane Doe", booking_date := ⟨2025, 6, 1⟩ }
    { input0 with patient_name := "Jane Doe", booking_date := ⟨2025, 6, 1⟩ }
    (by decide) bkPending (by decide) (by decide) (by decide) (by decide)
    (Or.inl (by decide))

/-- C9: the admin bulk cancel action deletes no row — every booking
survives with every field except possibly `status` unchanged — and after
it the schema-level uniqueness constraint still blocks the reinsertion of
the (test, booking_date, booking_time) slot of a cancelled booking: the
insert fails with the uniqueness error of the store. -/
theorem cancel_keeps_row_and_blocks_slot (db : DB) (ids : List Nat)
    (today : Date) (now : Time) (nowTs : Nat) (pid : Nat) (nts : String)
    (b : Booking) (hb : b ∈ db.bookings)
    (hclean : bookingCleanCheck today now b.booking_date b.booking_time =
      .ok ()) :
    (mark_cancelled db.bookings ids).length = db.bookings.length ∧
    (∀ x ∈ db.bookings, ∃ x2 ∈ mark_cancelled db.bookings ids,
      x2.id = x.id ∧ x2.patient = x.patient ∧ x2.test = x.test ∧
      x2.booking_date = x.booking_date ∧ x2.booking_time = x.booking_time ∧
      x2.notes = x.notes ∧ x2.created_at = x.created_at ∧
      x2.updated_at = x.updated_at) ∧
    createBooking { db with bookings := mark_cancelled db.bookings ids }
        today now nowTs pid b.test b.booking_date b.booking_time nts =
      .error "UNIQUE constraint failed: booking_booking.test_id, booking_booking.booking_date, booking_booking.booking_time" := by
  refine ⟨?_, ?_, ?_⟩
  · unfold mark_cancelled querysetUpdateStatus
    exact List.length_map _ _
  · intro x hx
    refine ⟨if x.id ∈ ids then { x with status := .cancelled } else x, ?_, ?_⟩
    · unfold mark_cancelled querysetUpdateStatus
      exact List.mem_map_of_mem _ hx
    · by_cases hid : x.id ∈ ids <;> simp [hid]
  · have htaken : tripleTaken (mark_cancelled db.bookings ids) b.test
        b.booking_date b.booking_time = true := by
      unfold tripleTaken
      rw [List.any_eq_true]
      refine ⟨if b.id ∈ ids then { b with status := .cancelled } else b, ?_, ?_⟩
      · unfold mark_cancelled querysetUpdateStatus
        exact List.mem_map_of_mem _ hb
      · by_cases hid : b.id ∈ ids <;> simp [hid]
    unfold createBooking
    rw [hclean]
    dsimp only
    rw [htaken]
    simp

/-- Witness for C9: a confirmed booking is bulk-cancelled; the row is kept
(status flipped only) and reinserting its slot is refused by the store. -/
theorem cancel_keeps_row_and_blocks_slot_witness :
    (mark_cancelled [bkConfirmed] [1]).length = 1 ∧
    createBooking { db0 with bookings := mark_cancelled [bkConfirmed] [1] }
      ⟨2025, 6, 1⟩ ⟨9, 0⟩ 20 5 bkConfirmed.test bkConfirmed.booking_date
      bkConfirmed.booking_time "" =
      .error "UNIQUE constraint failed: booking_booking.test_id, booking_booking.booking_date, booking_booking.booking_time" := by
  have h := cancel_keeps_row_and_blocks_slot
    { db0 with bookings := [bkConfirmed] }
    [1] ⟨2025, 6, 1⟩ ⟨9, 0⟩ 20 5 ""
    bkConfirmed (by decide) rfl
  exact ⟨h.1, h.2.2⟩

/-- Counterexample to C6: the bulk mark-confirmed action, performed at
tick 10 on a booking last modified at tick 5, updates the status but
leaves `updated_at` at 5 — the modification timestamp is *not* refreshed,
because `queryset.update` issues a direct UPDATE of the status column and
never calls `save`, so `auto_now` does not run. -/
theorem bulk_update_does_not_refresh_updated_at :
    mark_confirmed [bkStale] [1] = [{ bkStale with status := .confirmed }] ∧
    ∀ x ∈ mark_confirmed [bkStale] [1],
      x.status = .confirmed ∧ x.updated_at = 5 ∧ x.updated_at ≠ 10 := by
  decide

/-- C6 amended: a bulk status action updates exactly the status field of
the selected bookings — every other field, `updated_at` included, is left
as it was and no row is added or removed — while an *individual*
`Booking.save` (the admin change-form path) does refresh `updated_at` to
the save time. -/
theorem bulk_status_update_fields (bookings : List Booking) (ids : List Nat)
    (s : Status) (b : Booking) (hb : b ∈ bookings) (db : DB) (today : Date)
    (now : Time) (nowTs : Nat) :
    (querysetUpdateStatus bookings ids s).length = bookings.length ∧
    (∃ x ∈ querysetUpdateStatus bookings ids s, x.id = b.id ∧
      x.status = (if b.id ∈ ids then s else b.status) ∧
      x.updated_at = b.updated_at ∧ x.patient = b.patient ∧ x.test = b.test ∧
      x.booking_date = b.booking_date ∧ x.booking_time = b.booking_time ∧
      x.notes = b.notes ∧ x.created_at = b.created_at) ∧
    (∀ db2, bookingSave db today now nowTs b = .ok db2 →
      ∀ x ∈ db2.bookings, x.id = b.id → x.updated_at = nowTs) := by
  refine ⟨List.length_map _ _, ?_, ?_⟩
  · refine ⟨if b.id ∈ ids then { b with status := s } else b,
      List.mem_map_of_mem _ hb, ?_⟩
    by_cases hid : b.id ∈ ids <;> simp [hid]
  · intro db2 hsave x hx hxid
    unfold bookingSave at hsave
    split at hsave
    · exact absurd hsave (by simp)
    · simp only [Except.ok.injEq] at hsave
      rw [← hsave] at hx
      simp only [List.mem_map] at hx
      obtain ⟨y, _, hy⟩ := hx
      by_cases hyid : (y.id == b.id) = true
      · rw [if_pos hyid] at hy
        rw [← hy]
      · rw [if_neg hyid] at hy
        rw [← hy] at hxid
        exact absurd (by simp [hxid]) hyid

/-- Witness for C6 amended: one pending booking, bulk-confirmed; and an
individual save at tick 42 stamps `updated_at` with 42. -/
theorem bulk_status_update_fields_witness :
    (querysetUpdateStatus [bkStale] [1] Status.confirmed).length = 1 ∧
    (∀ db2, bookingSave db0 ⟨2025, 6, 1⟩ ⟨9, 0⟩ 42 bkStale = .ok db2 →
      ∀ x ∈ db2.bookings, x.id = bkStale.id → x.updated_at = 42) := by
  have h := bulk_status_update_fields [bkStale] [1] Status.confirmed
    bkStale (by decide) db0 ⟨2025, 6, 1⟩ ⟨9, 0⟩ 42
  exact ⟨h.1, h.2.2⟩

theorem fieldClean_some_parts (db : DB) (input cd : CombinedInput)
    (h : fieldClean db input = some cd) :
    cd.patient_name = pyStrip input.patient_name ∧
    cd.patient_phone = pyStrip input.patient_phone ∧
    cd.patient_email = pyStrip input.patient_email ∧
    cd.patient_age = input.patient_age ∧
    cd.patient_gender = input.patient_gender ∧
    cd.patient_address = pyStrip input.patient_address ∧
    cd.test = input.test ∧ cd.booking_date = input.booking_date ∧
    cd.booking_time = input.booking_time ∧ cd.notes = pyStrip input.notes := by
  simp only [fieldClean] at h
  split at h
  · exact absurd h (by simp)
  split at h
  · exact absurd h (by simp)
  split at h
  · exact absurd h (by simp)
  split at h
  · exact absurd h (by simp)
  split at h
  · exact absurd h (by simp)
  split at h
  · exact absurd h (by simp)
  split at h
  · exact absurd h (by simp)
  simp only [Option.some.injEq] at h
  rw [← h]
  exact ⟨rfl, rfl, rfl, rfl, rfl, rfl, rfl, rfl, rfl, rfl⟩

theorem upsertPatient_ok_patient (db : DB) (nowTs : Nat) (pd : PatientData)
    (db1 : DB) (pid : Nat)
    (h : upsertPatient db nowTs pd = .ok (db1, pid)) :
    ∃ p ∈ db1.patients, p.name = pd.name ∧ p.age = pd.age ∧
      p.gender = pd.gender ∧ p.phone = pd.phone ∧ p.email = pd.email ∧
      p.address = pd.address ∧ p.id = pid := by
  unfold upsertPatient at h
  split at h
  · simp only [Except.ok.injEq, Prod.mk.injEq] at h
    rw [← h.1]
    refine ⟨{ id := db.nextPatientId, name := pd.name, age := pd.age,
              gender := pd.gender, phone := pd.phone, email := pd.email,
              address := pd.address, created_at := nowTs }, ?_,
            rfl, rfl, rfl, rfl, rfl, rfl, h.2⟩
    simp
  · rename_i p hfilter
    simp only [Except.ok.injEq, Prod.mk.injEq] at h
    have hp : p ∈ db.patients :=
      List.mem_of_mem_filter (hfilter ▸ List.mem_singleton_self p)
    rw [← h.1]
    refine ⟨_, List.mem_map_of_mem _ hp, ?_⟩
    rw [beq_self_eq_true, if_pos rfl]
    exact ⟨rfl, rfl, rfl, rfl, rfl, rfl, h.2⟩
  · exact absurd h (by simp)

theorem book_test_success_patient (db : DB) (today : Date) (now : Time)
    (nowTs : Nat) (input : CombinedInput) (db2 : DB) (bid : Nat)
    (h : book_test db today now nowTs input = .success db2 bid) :
    ∃ p ∈ db2.patients,
      p.name = pyStrip input.patient_name ∧
      p.age = input.patient_age ∧ p.gender = input.patient_gender ∧
      p.phone = pyStrip input.patient_phone ∧
      p.email = pyStrip input.patient_email ∧
      p.address = pyStrip input.patient_address := by
  unfold book_test at h
  cases hfc : fieldClean db input with
  | none => rw [hfc] at h; simp at h
  | some cd =>
    rw [hfc] at h
    dsimp only at h
    by_cases he : (combinedCleanErrors db.bookings db.tests today cd).isEmpty
    · rw [if_pos he] at h
      cases hup : upsertPatient db nowTs (patientDataOf cd) with
      | error e => rw [hup] at h; simp at h
      | ok pr =>
        obtain ⟨db1, pid⟩ := pr
        rw [hup] at h
        dsimp only at h
        cases hcr : createBooking db1 today now nowTs pid cd.test
            cd.booking_date cd.booking_time cd.notes with
        | error e => rw [hcr] at h; simp at h
        | ok pr2 =>
          obtain ⟨db2x, bidx⟩ := pr2
          rw [hcr] at h
          simp only [BookResult.success.injEq] at h
          obtain ⟨p, hp, hfields⟩ :=
            upsertPatient_ok_patient _ _ _ _ _ hup
          have hparts := fieldClean_some_parts _ _ _ hfc
          have hpat : db2x.patients = db1.patients :=
            (createBooking_ok_parts _ _ _ _ _ _ _ _ _ _ _ hcr).1
          refine ⟨p, ?_, ?_, ?_, ?_, ?_, ?_, ?_⟩
          · rw [← h.1, hpat]; exact hp
          · rw [hfields.1]; exact hparts.1
          · rw [hfields.2.1]; exact hparts.2.2.2.1
          · rw [hfields.2.2.1]; exact hparts.2.2.2.2.1
          · rw [hfields.2.2.2.1]; exact hparts.2.1
          · rw [hfields.2.2.2.2.1]; exact hparts.2.2.1
          · rw [hfields.2.2.2.2.2.1]; exact hparts.2.2.2.2.2.1
    · rw [if_neg he] at h; simp at h

/-- C7: with a validated submission and an insertable slot, an email
matching exactly one stored patient makes the workflow overwrite that
mutable fields of that patient in place — the patient list is the pointwise
update at that id, so no second row appears — while still inserting a new
pending Booking row referencing that patient; an email matching no stored
patient makes it append one new patient row instead. -/
theorem upsert_by_email (db : DB) (today : Date) (now : Time) (nowTs : Nat)
    (input cd : CombinedInput)
    (hfc : fieldClean db input = some cd)
    (hok : (combinedCleanErrors db.bookings db.tests today cd).isEmpty = true)
    (hclean : bookingCleanCheck today now cd.booking_date cd.booking_time =
      .ok ())
    (hfree : tripleTaken db.bookings cd.test cd.booking_date
      cd.booking_time = false) :
    (∀ p, db.patients.filter (fun q => q.email == cd.patient_email) = [p] →
      ∃ db2, book_test db today now nowTs input = .success db2 db.nextBookingId ∧
        db2 = { db with
          patients := db.patients.map (fun q => if q.id == p.id then
            { p with name := cd.patient_name, age := cd.patient_age,
                     gender := cd.patient_gender, phone := cd.patient_phone,
                     email := cd.patient_email,
                     address := cd.patient_address } else q),
          bookings := db.bookings ++
            [{ id := db.nextBookingId, patient := p.id, test := cd.test,
               booking_date := cd.booking_date,
               booking_time := cd.booking_time, status := .pending,
               notes := cd.notes, created_at := nowTs,
               updated_at := nowTs }],
          nextBookingId := db.nextBookingId + 1 } ∧
        db2.patients.length = db.patients.length) ∧
    (db.patients.filter (fun q => q.email == cd.patient_email) = [] →
      ∃ db2, book_test db today now nowTs input = .success db2 db.nextBookingId ∧
        db2 = { db with
          patients := db.patients ++
            [{ id := db.nextPatientId, name := cd.patient_name,
               age := cd.patient_age, gender := cd.patient_gender,
               phone := cd.patient_phone, email := cd.patient_email,
               address := cd.patient_address, created_at := nowTs }],
          bookings := db.bookings ++
            [{ id := db.nextBookingId, patient := db.nextPatientId,
               test := cd.test, booking_date := cd.booking_date,
               booking_time := cd.booking_time, status := .pending,
               notes := cd.notes, created_at := nowTs,
               updated_at := nowTs }],
          nextPatientId := db.nextPatientId + 1,
          nextBookingId := db.nextBookingId + 1 } ∧
        db2.patients.length = db.patients.length + 1) := by
  constructor
  · intro p hmatch
    refine ⟨_, ?_, rfl, by simp⟩
    unfold book_test
    rw [hfc]
    dsimp only
    rw [if_pos hok]
    unfold upsertPatient
    dsimp only [patientDataOf]
    rw [hmatch]
    dsimp only
    unfold createBooking
    rw [hclean]
    dsimp only
    rw [hfree]
    simp
  · intro hmatch
    refine ⟨_, ?_, rfl, by simp⟩
    unfold book_test
    rw [hfc]
    dsimp only
    rw [if_pos hok]
    unfold upsertPatient
    dsimp only [patientDataOf]
    rw [hmatch]
    dsimp only
    unfold createBooking
    rw [hclean]
    dsimp only
    rw [hfree]
    simp

/-- Witness for C7: the same valid submission run against a store where
its email matches the one existing patient (fields overwritten, booking
added) and against the empty store (patient appended). -/
theorem upsert_by_email_witness :
    (∃ db2, book_test
        { db0 with patients :=
            [{ id := 4, name := "Old Name", age := 50, gender := "M",
               phone := "0000000000", email := "A@b.com",
               address := "old", created_at := 2 }] }
        ⟨2025, 6, 1⟩ ⟨9, 0⟩ 10 input0 = .success db2 1 ∧
      db2.patients.length = 1) ∧
    (∃ db2, book_test db0 ⟨2025, 6, 1⟩ ⟨9, 0⟩ 10 input0 = .success db2 1 ∧
      db2.patients.length = 0 + 1) := by
  constructor
  · obtain ⟨db2, hrun, _, hlen⟩ :=
      (upsert_by_email
        { db0 with patients :=
            [{ id := 4, name := "Old Name", age := 50, gender := "M",
               phone := "0000000000", email := "A@b.com",
               address := "old", created_at := 2 }] }
        ⟨2025, 6, 1⟩ ⟨9, 0⟩ 10 input0
        { input0 with patient_name := "jane doe" }
        (by decide) (by decide) rfl (by decide)).1
      { id := 4, name := "Old Name", age := 50, gender := "M",
        phone := "0000000000", email := "A@b.com", address := "old",
        created_at := 2 }
      (by decide)
    exact ⟨db2, hrun, hlen⟩
  · obtain ⟨db2, hrun, _, hlen⟩ :=
      (upsert_by_email db0 ⟨2025, 6, 1⟩ ⟨9, 0⟩ 10 input0
        { input0 with patient_name := "jane doe" }
        (by decide) (by decide) rfl (by decide)).2
      (by decide)
    exact ⟨db2, hrun, hlen⟩

/-- Counterexample to C5: on 2025-06-01 at 09:00, a combined submission
for today at 08:30 — a time already past — produces *no* error at
form-validation time (`CombinedBookingForm.clean` checks past-date and
lab-hours but has no same-day past-time rule), refuting the claim that
the rule is enforced at form-validation time; the submission is stopped
only afterwards, at persistence time, by `Booking.save` inside the
transaction. -/
theorem same_day_past_time_passes_form_validation :
    combinedCleanErrors db0.bookings db0.tests ⟨2025, 6, 1⟩
      { input0 with patient_name := "jane doe",
                    booking_date := ⟨2025, 6, 1⟩,
                    booking_time := ⟨8, 30⟩ } = [] ∧
    Time.leb ⟨8, 30⟩ ⟨9, 0⟩ = true ∧
    book_test db0 ⟨2025, 6, 1⟩ ⟨9, 0⟩ 10
      { input0 with booking_date := ⟨2025, 6, 1⟩,
                    booking_time := ⟨8, 30⟩ } =
      .failed db0 "Cannot book for a past time today." := by
  decide

/-- C5 amended: for a validated combined submission dated today, a
booking_time not after the current clock time is rejected — but only at
persistence time, where `Booking.save` raises inside the transaction and
the store is left unchanged; a booking_time strictly after now (other
fields valid, slot free, email matching at most one patient) is accepted.
The own validation of the combined form never checks the same-day past-time
rule, so the enforcement happens once, not twice. -/
theorem same_day_rule_enforced_at_persistence (db : DB) (today : Date)
    (now : Time) (nowTs : Nat) (input cd : CombinedInput)
    (hfc : fieldClean db input = some cd)
    (hd : cd.booking_date = today)
    (hok : (combinedCleanErrors db.bookings db.tests today cd).isEmpty
      = true) :
    (Time.leb cd.booking_time now = true →
      ∃ msg, book_test db today now nowTs input = .failed db msg) ∧
    (Time.leb cd.booking_time now = false →
      tripleTaken db.bookings cd.test cd.booking_date cd.booking_time
        = false →
      (db.patients.filter (fun q => q.email == cd.patient_email) = [] ∨
        ∃ p, db.patients.filter (fun q => q.email == cd.patient_email)
          = [p]) →
      ∃ db2 bid, book_test db today now nowTs input = .success db2 bid) := by
  constructor
  · intro hle
    have hbc : bookingCleanCheck today now cd.booking_date cd.booking_time =
        .error "Cannot book for a past time today." := by
      unfold bookingCleanCheck
      rw [hd]
      simp [Date.ltb_irrefl, hle]
    unfold book_test
    rw [hfc]
    dsimp only
    rw [if_pos hok]
    cases hup : upsertPatient db nowTs (patientDataOf cd) with
    | error e => exact ⟨e, rfl⟩
    | ok pr =>
      obtain ⟨db1, pid⟩ := pr
      refine ⟨"Cannot book for a past time today.", ?_⟩
      dsimp only
      unfold createBooking
      rw [hbc]
  · intro hgt hfree hmatch
    have hbc : bookingCleanCheck today now cd.booking_date cd.booking_time =
        .ok () := by
      unfold bookingCleanCheck
      rw [hd]
      simp [Date.ltb_irrefl, hgt]
    rcases hmatch with hm | ⟨p, hm⟩ <;>
      · unfold book_test
        rw [hfc]
        dsimp only
        rw [if_pos hok]
        unfold upsertPatient
        dsimp only [patientDataOf]
        rw [hm]
        dsimp only
        unfold createBooking
        rw [hbc]
        dsimp only
        rw [hfree]
        exact ⟨_, _, rfl⟩

/-- Witness for C5 amended: at 09:00 on 2025-06-01, the same-day 08:30
submission fails (only at persistence) while the same-day 09:30
submission succeeds. -/
theorem same_day_rule_enforced_at_persistence_witness :
    (∃ msg, book_test db0 ⟨2025, 6, 1⟩ ⟨9, 0⟩ 10
      { input0 with booking_date := ⟨2025, 6, 1⟩,
                    booking_time := ⟨8, 30⟩ } = .failed db0 msg) ∧
    (∃ db2 bid, book_test db0 ⟨2025, 6, 1⟩ ⟨9, 0⟩ 10
      { input0 with booking_date := ⟨2025, 6, 1⟩,
                    booking_time := ⟨9, 30⟩ } = .success db2 bid) := by
  constructor
  · exact (same_day_rule_enforced_at_persistence db0 ⟨2025, 6, 1⟩ ⟨9, 0⟩ 10
      { input0 with booking_date := ⟨2025, 6, 1⟩, booking_time := ⟨8, 30⟩ }
      { input0 with patient_name := "jane doe",
                    booking_date := ⟨2025, 6, 1⟩, booking_time := ⟨8, 30⟩ }
      (by decide) (by decide) (by decide)).1 (by decide)
  · exact (same_day_rule_enforced_at_persistence db0 ⟨2025, 6, 1⟩ ⟨9, 0⟩ 10
      { input0 with booking_date := ⟨2025, 6, 1⟩, booking_time := ⟨9, 30⟩ }
      { input0 with patient_name := "jane doe",
                    booking_date := ⟨2025, 6, 1⟩, booking_time := ⟨9, 30⟩ }
      (by decide) (by decide) (by decide)).2 (by decide) (by decide)
      (Or.inl (by decide))

/-- The database after running `book_test` on `db0` with `input0`
(today 2025-06-01, now 09:00, tick 10). -/
def dbAfter0 : DB :=
  { patients := [{ id := 1, name := "jane doe", age := 30, gender := "F",
                   phone := "12-3456", email := "A@b.com",
                   address := "12 Main Road", created_at := 10 }],
    tests := [test1],
    bookings := [{ id := 1, patient := 1, test := 1,
                   booking_date := ⟨2025, 6, 2⟩, booking_time := ⟨10, 0⟩,
                   status := .pending, notes := "", created_at := 10,
                   updated_at := 10 }],
    nextPatientId := 2, nextBookingId := 2 }

/-- Submission `input0` with the name replaced by one containing digits. -/
def input4 : CombinedInput := { input0 with patient_name := "jane123" }

/-- The database after running `book_test` on `db0` with `input4`. -/
def dbAfter4 : DB :=
  { dbAfter0 with patients :=
      [{ id := 1, name := "jane123", age := 30, gender := "F",
         phone := "12-3456", email := "A@b.com",
         address := "12 Main Road", created_at := 10 }] }

/-- Counterexample to C3: the combined submission `input0`, whose phone
"12-3456" contains a non-digit and only 6 digits, is accepted as valid
and committed; the stored phone is the raw (whitespace-stripped) input,
not a cleaned value — `CombinedBookingForm` declares no phone validator
and `book_test` stores the cleaned_data patient_phone entry as-is. -/
theorem phone_stored_raw_counterexample :
    book_test db0 ⟨2025, 6, 1⟩ ⟨9, 0⟩ 10 input0 = .success dbAfter0 1 ∧
    dbAfter0.patients.map (fun p => p.phone) = ["12-3456"] ∧
    ("12-3456".data.filter fun c => c.isDigit).length = 6 := by
  decide

/-- C3 amended: the digit-or-plus stripping and the minimum-length check
live only in `PatientForm.clean_phone`, which keeps every plus sign wherever it
occurs and compares 10 against the length of the kept string with its
plus signs included; the combined booking workflow performs no phone
cleaning at all and stores the submitted phone (whitespace-stripped
only). -/
theorem phone_cleaning_actual (phone : String) (db : DB) (today : Date)
    (now : Time) (nowTs : Nat) (input : CombinedInput) (db2 : DB)
    (bid : Nat) :
    (∀ c, phone ≠ "" → clean_phone phone = .ok c →
      c.data = phone.data.filter (fun ch => ch.isDigit || ch == '+') ∧
      10 ≤ c.length) ∧
    (phone ≠ "" →
      (String.mk (phone.data.filter fun ch =>
        ch.isDigit || ch == '+')).length < 10 →
      clean_phone phone = .error "Phone number must be at least 10 digits.") ∧
    (book_test db today now nowTs input = .success db2 bid →
      ∃ p ∈ db2.patients, p.phone = pyStrip input.patient_phone) := by
  refine ⟨?_, ?_, ?_⟩
  · intro c hne hok
    have hb : (phone == "") = false := beq_eq_false_iff_ne.mpr hne
    unfold clean_phone at hok
    rw [hb, if_neg Bool.false_ne_true] at hok
    dsimp only at hok
    split at hok
    · exact absurd hok (by simp)
    · rename_i hlen
      simp only [Except.ok.injEq] at hok
      rw [← hok]
      exact ⟨rfl, Nat.not_lt.mp hlen⟩
  · intro hne hlt
    have hb : (phone == "") = false := beq_eq_false_iff_ne.mpr hne
    unfold clean_phone
    rw [hb, if_neg Bool.false_ne_true]
    dsimp only
    rw [if_pos hlt]
  · intro h
    obtain ⟨p, hp, hfs⟩ := book_test_success_patient _ _ _ _ _ _ _ h
    exact ⟨p, hp, hfs.2.2.2.1⟩

/-- Witness for C3 amended: `clean_phone` keeps an inner plus sign and
accepts "+2+34567890" (9 digits and two plus signs), rejects "555-123",
and the
committed run `input0` stores the raw stripped phone. -/
theorem phone_cleaning_actual_witness :
    (("+2+34567890" : String).data =
      "+2+34567890".data.filter (fun ch => ch.isDigit || ch == '+') ∧
      10 ≤ ("+2+34567890" : String).length) ∧
    clean_phone "555-123" = .error "Phone number must be at least 10 digits." ∧
    (∃ p ∈ dbAfter0.patients, p.phone = pyStrip input0.patient_phone) := by
  have hA := phone_cleaning_actual "+2+34567890" db0 ⟨2025, 6, 1⟩ ⟨9, 0⟩ 10
    input0 dbAfter0 1
  have hB := phone_cleaning_actual "555-123" db0 ⟨2025, 6, 1⟩ ⟨9, 0⟩ 10
    input0 dbAfter0 1
  exact ⟨hA.1 "+2+34567890" (by decide) rfl,
         hB.2.1 (by decide) (by decide),
         hA.2.2 (by decide)⟩

/-- Counterexample to C4: the combined submission with name "jane123" —
which contains digits, so the claim says it must be rejected — is
accepted and committed, and the stored name is the raw
(whitespace-stripped) input "jane123", not the title-cased "Jane123":
`CombinedBookingForm.clean` checks only the length of the title-cased
name and never writes the cleaned value back into `cleaned_data`. -/
theorem name_stored_raw_counterexample :
    book_test db0 ⟨2025, 6, 1⟩ ⟨9, 0⟩ 10 input4 = .success dbAfter4 1 ∧
    dbAfter4.patients.map (fun p => p.name) = ["jane123"] ∧
    (∃ c ∈ "jane123".data, ¬ (c.isAlpha ∨ c.isWhitespace)) ∧
    pyTitle (pyStrip "jane123") ≠ "jane123" := by
  refine ⟨by decide, by decide, ⟨'1', by decide⟩, by decide⟩

/-- C4 amended: stripping, title-casing and the letters-and-spaces check
live only in `PatientForm.clean_name`; the combined booking workflow
rejects only names whose stripped title-cased form is shorter than 2
characters, accepts names with digits, and stores the raw
(whitespace-stripped) name without title-casing. -/
theorem name_cleaning_actual (name : String) (db : DB) (today : Date)
    (now : Time) (nowTs : Nat) (input : CombinedInput) (db2 : DB)
    (bid : Nat) :
    (clean_name "  jane doe " = .ok "Jane Doe") ∧
    (clean_name "Jane123" =
      .error "Name should contain only letters and spaces.") ∧
    (∀ n, name ≠ "" → clean_name name = .ok n →
      n = pyTitle (pyStrip name) ∧ 2 ≤ n.length ∧
      ∀ c ∈ n.data, c.isAlpha ∨ c.isWhitespace) ∧
    (book_test db today now nowTs input = .success db2 bid →
      ∃ p ∈ db2.patients, p.name = pyStrip input.patient_name) ∧
    (∀ cd, fieldClean db input = some cd → cd.patient_name ≠ "" →
      (pyTitle (pyStrip cd.patient_name)).length < 2 →
      ∃ errs, book_test db today now nowTs input = .rejected db errs) := by
  refine ⟨rfl, rfl, ?_, ?_, ?_⟩
  · intro n hne hok
    have hb : (name == "") = false := beq_eq_false_iff_ne.mpr hne
    unfold clean_name at hok
    rw [hb, if_neg Bool.false_ne_true] at hok
    dsimp only at hok
    split at hok
    · exact absurd hok (by simp)
    · split at hok
      · exact absurd hok (by simp)
      · rename_i hlen hall
        simp only [Except.ok.injEq] at hok
        rw [← hok]
        refine ⟨rfl, Nat.not_lt.mp hlen, ?_⟩
        intro c hc
        have : ((pyTitle (pyStrip name)).data.all fun ch =>
            ch.isAlpha || ch.isWhitespace) = true := by
          by_contra hx
          exact hall (by simpa using hx)
        have := List.all_eq_true.mp this c hc
        simpa using this
  · intro h
    obtain ⟨p, hp, hfs⟩ := book_test_success_patient _ _ _ _ _ _ _ h
    exact ⟨p, hp, hfs.1⟩
  · intro cd hfc hne hlt
    have hc : (!(cd.patient_name == "")
        && decide ((pyTitle (pyStrip cd.patient_name)).length < 2)) = true := by
      simp [hne, hlt]
    have he : (combinedCleanErrors db.bookings db.tests today cd).isEmpty
        = false := by
      unfold combinedCleanErrors
      rw [if_pos hc]
      simp
    unfold book_test
    rw [hfc]
    dsimp only
    rw [he, if_neg Bool.false_ne_true]
    exact ⟨_, rfl⟩

/-- Witness for C4 amended: `clean_name` on "  jane doe " yields
"Jane Doe"; the committed `input0` run stores the raw stripped name; the
one-letter name "x" is rejected by the combined form. -/
theorem name_cleaning_actual_witness :
    (("Jane Doe" : String) = pyTitle (pyStrip "  jane doe ") ∧
      2 ≤ ("Jane Doe" : String).length ∧
      ∀ c ∈ ("Jane Doe" : String).data, c.isAlpha ∨ c.isWhitespace) ∧
    (∃ p ∈ dbAfter0.patients, p.name = pyStrip input0.patient_name) ∧
    (∃ errs, book_test db0 ⟨2025, 6, 1⟩ ⟨9, 0⟩ 10
      { input0 with patient_name := "x" } = .rejected db0 errs) := by
  have hA := name_cleaning_actual "  jane doe " db0 ⟨2025, 6, 1⟩ ⟨9, 0⟩ 10
    input0 dbAfter0 1
  have hB := name_cleaning_actual "x" db0 ⟨2025, 6, 1⟩ ⟨9, 0⟩ 10
    { input0 with patient_name := "x" } dbAfter0 1
  exact ⟨hA.2.2.1 "Jane Doe" (by decide) rfl,
         hA.2.2.2.1 (by decide),
         hB.2.2.2.2 { input0 with patient_name := "x" }
           (by decide) (by decide) (by decide)⟩

/-- An `input0` variant with mixed-case email, and its all-lowercase
re-submission for a different slot. -/
def input8a : CombinedInput := { input0 with patient_email := "Jane@Example.com" }

/-- See `input8a`. -/
def input8b : CombinedInput :=
  { input8a with patient_email := "jane@example.com",
                 booking_time := ⟨11, 0⟩ }

/-- Counterexample to C8: the combined workflow neither lowercases the
email before storing it nor before using it as the upsert key — a
submission with "Jane@Example.com" followed by one with
"jane@example.com" does not match the stored patient and creates a
second patient row, and the stored emails keep their original case.
(Only `PatientForm.clean_email`, unused by this workflow, lowercases.) -/
theorem email_case_counterexample :
    ∃ dbA, book_test db0 ⟨2025, 6, 1⟩ ⟨9, 0⟩ 10 input8a = .success dbA 1 ∧
    ∃ dbB, book_test dbA ⟨2025, 6, 1⟩ ⟨9, 30⟩ 20 input8b = .success dbB 2 ∧
      dbB.patients.map (fun p => p.email) =
        ["Jane@Example.com", "jane@example.com"] ∧
      dbB.patients.length = 2 :=
  ⟨_, rfl, _, rfl, by decide, by decide⟩

/-- C8 amended: lowercasing lives only in `PatientForm.clean_email`
(lowercase, then strip); the combined booking workflow stores — and keys
the patient upsert on — the submitted email with only the framework
whitespace strip applied, case preserved. -/
theorem email_handling_actual (email : String) (db : DB) (today : Date)
    (now : Time) (nowTs : Nat) (input : CombinedInput) (db2 : DB)
    (bid : Nat) :
    (email ≠ "" → clean_email email = pyStrip (pyLower email)) ∧
    (book_test db today now nowTs input = .success db2 bid →
      ∃ p ∈ db2.patients, p.email = pyStrip input.patient_email) := by
  constructor
  · intro hne
    have hb : (email == "") = false := beq_eq_false_iff_ne.mpr hne
    unfold clean_email
    rw [hb, if_neg Bool.false_ne_true]
  · intro h
    obtain ⟨p, hp, hfs⟩ := book_test_success_patient _ _ _ _ _ _ _ h
    exact ⟨p, hp, hfs.2.2.2.2.1⟩

/-- Witness for C8 amended: `clean_email` lowercases and strips
"  A@B.Com "; the committed `input0` run stores the raw stripped email
"A@b.com" with its capital letter intact. -/
theorem email_handling_actual_witness :
    clean_email "  A@B.Com " = pyStrip (pyLower "  A@B.Com ") ∧
    (∃ p ∈ dbAfter0.patients, p.email = pyStrip input0.patient_email) := by
  have h := email_handling_actual "  A@B.Com " db0 ⟨2025, 6, 1⟩ ⟨9, 0⟩ 10
    input0 dbAfter0 1
  exact ⟨h.1 (by decide), h.2 (by decide)⟩

end MedLab
